import Mathlib

/-!
Verification of the filament `apigen` tool (Python) against its natural-language
specification.  The definitions below are a shallow embedding of the Python
sources under `filament/apigen/`:

* `model/types.py`, `model/classes.py`, `model/enums.py`, `model/value_types.py`,
  `model/interfaces.py`, `model/callbacks.py` — the API model data classes;
* `generators/c.py`, `generators/c_type_conversion.py`,
  `generators/c_name_mangling.py` — the C binding generator;
* `apiparser.py` — the declaration extractor;
* `settings.py` — static configuration tables.

Python lists become Lean `List`s, `None`-able values become `Option`s, dynamic
`isinstance` dispatch becomes pattern matching on an inductive type, and code
that can raise becomes `Option`-valued (with `none` marking the raising paths).
Python `==` on the model objects (which have no `__eq__` and therefore compare
by identity, or compare `to_dict()` trees structurally) is modelled by the
structural `beq` functions below; the theorems are stated on inputs where the
two notions agree (structurally distinct objects).
-/

set_option maxRecDepth 16384

namespace Filament

/-- The primitive kinds of `model/types.py` (`class PrimitiveTypeKind`).  Note
that this enumeration has no `FRUSTUM` member, although the generator tables in
`generators/c.py` refer to `PrimitiveTypeKind.FRUSTUM`. -/
inductive PrimitiveTypeKind where
  | UNEXPOSED
  | BOOL
  | UINT8
  | INT8
  | UINT16
  | INT16
  | UINT32
  | INT32
  | UINT64
  | INT64
  | SIZE_T
  | FLOAT
  | DOUBLE
  | STD_STRING
  | ENTITY
  | SAMPLER_PARAMS
  | LINEAR_COLOR
  | LINEAR_COLOR_A
  | MAT33_DOUBLE
  | MAT33_FLOAT
  | MAT44_DOUBLE
  | MAT44_FLOAT
  | VEC2_DOUBLE
  | VEC2_FLOAT
  | VEC3_DOUBLE
  | VEC3_FLOAT
  | VEC4_DOUBLE
  | VEC4_FLOAT
  | QUATERNION_FLOAT
  deriving DecidableEq, Repr, Fintype

/-- The Python source name of each `PrimitiveTypeKind` member (`member.name`). -/
def PrimitiveTypeKind.pyName : PrimitiveTypeKind → String
  | .UNEXPOSED => "UNEXPOSED"
  | .BOOL => "BOOL"
  | .UINT8 => "UINT8"
  | .INT8 => "INT8"
  | .UINT16 => "UINT16"
  | .INT16 => "INT16"
  | .UINT32 => "UINT32"
  | .INT32 => "INT32"
  | .UINT64 => "UINT64"
  | .INT64 => "INT64"
  | .SIZE_T => "SIZE_T"
  | .FLOAT => "FLOAT"
  | .DOUBLE => "DOUBLE"
  | .STD_STRING => "STD_STRING"
  | .ENTITY => "ENTITY"
  | .SAMPLER_PARAMS => "SAMPLER_PARAMS"
  | .LINEAR_COLOR => "LINEAR_COLOR"
  | .LINEAR_COLOR_A => "LINEAR_COLOR_A"
  | .MAT33_DOUBLE => "MAT33_DOUBLE"
  | .MAT33_FLOAT => "MAT33_FLOAT"
  | .MAT44_DOUBLE => "MAT44_DOUBLE"
  | .MAT44_FLOAT => "MAT44_FLOAT"
  | .VEC2_DOUBLE => "VEC2_DOUBLE"
  | .VEC2_FLOAT => "VEC2_FLOAT"
  | .VEC3_DOUBLE => "VEC3_DOUBLE"
  | .VEC3_FLOAT => "VEC3_FLOAT"
  | .VEC4_DOUBLE => "VEC4_DOUBLE"
  | .VEC4_FLOAT => "VEC4_FLOAT"
  | .QUATERNION_FLOAT => "QUATERNION_FLOAT"

/-- The member names of `PrimitiveTypeKind` as declared in `model/types.py`. -/
def primitiveTypeKindMemberNames : List String :=
  ["UNEXPOSED", "BOOL", "UINT8", "INT8", "UINT16", "INT16", "UINT32", "INT32",
   "UINT64", "INT64", "SIZE_T", "FLOAT", "DOUBLE", "STD_STRING", "ENTITY",
   "SAMPLER_PARAMS", "LINEAR_COLOR", "LINEAR_COLOR_A", "MAT33_DOUBLE",
   "MAT33_FLOAT", "MAT44_DOUBLE", "MAT44_FLOAT", "VEC2_DOUBLE", "VEC2_FLOAT",
   "VEC3_DOUBLE", "VEC3_FLOAT", "VEC4_DOUBLE", "VEC4_FLOAT", "QUATERNION_FLOAT"]

/-- `PrimitiveTypeKind` member names that the table `_force_cast_primitive_kinds`
in `generators/c_type_conversion.py` (and, minus the color/sampler aliases, the
one in `generators/c.py`) refers to via attribute access. -/
def cGeneratorForceCastKindNames : List String :=
  ["FRUSTUM", "ENTITY", "MAT33_DOUBLE", "MAT33_FLOAT", "MAT44_DOUBLE",
   "MAT44_FLOAT", "VEC2_DOUBLE", "VEC2_FLOAT", "VEC3_DOUBLE", "VEC3_FLOAT",
   "VEC4_DOUBLE", "VEC4_FLOAT", "LINEAR_COLOR", "LINEAR_COLOR_A",
   "QUATERNION_FLOAT", "SAMPLER_PARAMS"]

/-- `PrimitiveTypeKind` member names used as keys of `_primitive_type_names`
in `generators/c.py` (same keys in `generators/c_type_conversion.py`). -/
def cGeneratorPrimitiveTableKindNames : List String :=
  ["BOOL", "UINT8", "INT8", "UINT16", "INT16", "UINT32", "INT32", "UINT64",
   "INT64", "SIZE_T", "FLOAT", "DOUBLE", "ENTITY", "SAMPLER_PARAMS",
   "LINEAR_COLOR", "LINEAR_COLOR_A", "MAT33_DOUBLE", "MAT33_FLOAT",
   "MAT44_DOUBLE", "MAT44_FLOAT", "VEC2_DOUBLE", "VEC2_FLOAT", "VEC3_DOUBLE",
   "VEC3_FLOAT", "VEC4_DOUBLE", "VEC4_FLOAT", "QUATERNION_FLOAT", "FRUSTUM"]

/-- `class ApiPassByRefType(Enum)` from `model/types.py`. -/
inductive ApiPassByRefType where
  | LVALUE_REF
  | RVALUE_REF
  | POINTER
  deriving DecidableEq, Repr

/-- The type-reference variants.  All variants except the last three are the
`ApiTypeRef` subclasses of `model/types.py`.

Modelled from the spec: the classes `ApiValueTypeRef`, `ApiStringType` and
`ApiOpaqueRef` are imported and used by `apiparser.py` and the generators but
their definitions are missing from the sources; following the spec data model
they are a value-type reference carrying a qualified name, a bare string type,
and a hidden-class reference carrying a qualified name. -/
inductive ApiTypeRef where
  | primitive (kind : PrimitiveTypeKind)
  | callbackRef (qualifiedName : String)
  | bitset (elementType : PrimitiveTypeKind) (elementCount : Nat)
  | entityInstance (ownerQualifiedName : String)
  | anonymousCallback (returnType : Option ApiTypeRef) (parameters : List ApiTypeRef)
      (signature : String)
  | enumRef (qualifiedName : String)
  | classRef (qualifiedName : String)
  | constantArray (elementType : ApiTypeRef) (elementCount : Nat)
  | passByRef (isConst : Bool) (refType : ApiPassByRefType) (pointee : Option ApiTypeRef)
  | valueTypeRef (qualifiedName : String)
  | stringType
  | opaqueRef (qualifiedName : String)
  deriving Repr

mutual

/-- Structural equality of type references (Python compares the `to_dict()`
trees of model objects structurally; `to_dict` is injective on this data). -/
def ApiTypeRef.beq : ApiTypeRef → ApiTypeRef → Bool
  | .primitive k, .primitive k2 => k = k2
  | .callbackRef n, .callbackRef n2 => n = n2
  | .bitset t c, .bitset t2 c2 => t = t2 && c = c2
  | .entityInstance n, .entityInstance n2 => n = n2
  | .anonymousCallback r p s, .anonymousCallback r2 p2 s2 =>
      ApiTypeRef.beqOpt r r2 && ApiTypeRef.beqList p p2 && s = s2
  | .enumRef n, .enumRef n2 => n = n2
  | .classRef n, .classRef n2 => n = n2
  | .constantArray t c, .constantArray t2 c2 => ApiTypeRef.beq t t2 && c = c2
  | .passByRef c r p, .passByRef c2 r2 p2 =>
      c = c2 && r = r2 && ApiTypeRef.beqOpt p p2
  | .valueTypeRef n, .valueTypeRef n2 => n = n2
  | .stringType, .stringType => true
  | .opaqueRef n, .opaqueRef n2 => n = n2
  | _, _ => false

/-- Structural equality on optional type references. -/
def ApiTypeRef.beqOpt : Option ApiTypeRef → Option ApiTypeRef → Bool
  | none, none => true
  | some t, some t2 => ApiTypeRef.beq t t2
  | _, _ => false

/-- Structural equality on lists of type references. -/
def ApiTypeRef.beqList : List ApiTypeRef → List ApiTypeRef → Bool
  | [], [] => true
  | t :: r, t2 :: r2 => ApiTypeRef.beq t t2 && ApiTypeRef.beqList r r2
  | _, _ => false

end

mutual

theorem ApiTypeRef.beq_refl : ∀ t : ApiTypeRef, ApiTypeRef.beq t t = true
  | .primitive _ => by simp [ApiTypeRef.beq]
  | .callbackRef _ => by simp [ApiTypeRef.beq]
  | .bitset _ _ => by simp [ApiTypeRef.beq]
  | .entityInstance _ => by simp [ApiTypeRef.beq]
  | .anonymousCallback r p _ => by
      simp [ApiTypeRef.beq, ApiTypeRef.beqOpt_refl r, ApiTypeRef.beqList_refl p]
  | .enumRef _ => by simp [ApiTypeRef.beq]
  | .classRef _ => by simp [ApiTypeRef.beq]
  | .constantArray t _ => by simp [ApiTypeRef.beq, ApiTypeRef.beq_refl t]
  | .passByRef _ _ p => by simp [ApiTypeRef.beq, ApiTypeRef.beqOpt_refl p]
  | .valueTypeRef _ => by simp [ApiTypeRef.beq]
  | .stringType => by simp [ApiTypeRef.beq]
  | .opaqueRef _ => by simp [ApiTypeRef.beq]

theorem ApiTypeRef.beqOpt_refl : ∀ o : Option ApiTypeRef, ApiTypeRef.beqOpt o o = true
  | none => by simp [ApiTypeRef.beqOpt]
  | some t => by simp [ApiTypeRef.beqOpt, ApiTypeRef.beq_refl t]

theorem ApiTypeRef.beqList_refl : ∀ l : List ApiTypeRef, ApiTypeRef.beqList l l = true
  | [] => by simp [ApiTypeRef.beqList]
  | t :: r => by simp [ApiTypeRef.beqList, ApiTypeRef.beq_refl t, ApiTypeRef.beqList_refl r]

end

/-- `class ApiParameterModel` from `model/classes.py`.  The `type` is optional
because `_build_type_model` resolves `void` to `None`. -/
structure ApiParameterModel where
  name : String
  type : Option ApiTypeRef
  deriving Repr

/-- Structural equality of parameter models. -/
def ApiParameterModel.beq (p q : ApiParameterModel) : Bool :=
  p.name = q.name && ApiTypeRef.beqOpt p.type q.type

theorem paramBeq_refl (p : ApiParameterModel) : p.beq p = true := by
  simp [ApiParameterModel.beq, ApiTypeRef.beqOpt_refl]

/-- Structural equality of parameter lists (Python `list.__eq__`, elementwise). -/
def paramsBeq : List ApiParameterModel → List ApiParameterModel → Bool
  | [], [] => true
  | p :: r, p2 :: r2 => p.beq p2 && paramsBeq r r2
  | _, _ => false

theorem paramsBeq_refl : ∀ l : List ApiParameterModel, paramsBeq l l = true
  | [] => by simp [paramsBeq]
  | p :: r => by simp [paramsBeq, paramBeq_refl, paramsBeq_refl r]

/-- `class ApiConstructor` from `model/classes.py`. -/
structure ApiConstructor where
  parameters : List ApiParameterModel
  deriving Repr

/-- `class ApiMethod` from `model/classes.py`. -/
structure ApiMethod where
  name : String
  returnType : Option ApiTypeRef
  parameters : List ApiParameterModel
  deriving Repr

/-- Structural equality of methods (the `to_dict()` comparison used by
`apiparser.get_method_comparison_obj`). -/
def ApiMethod.beq (m n : ApiMethod) : Bool :=
  m.name = n.name && ApiTypeRef.beqOpt m.returnType n.returnType
    && paramsBeq m.parameters n.parameters

theorem methodBeq_refl (m : ApiMethod) : m.beq m = true := by
  simp [ApiMethod.beq, ApiTypeRef.beqOpt_refl, paramsBeq_refl]

/-- `class ApiClass` from `model/classes.py`. -/
structure ApiClass where
  header : String
  qualifiedName : String
  name : String
  destructible : Bool
  constructors : List ApiConstructor
  methods : List ApiMethod
  staticMethods : List ApiMethod
  deriving Repr

/-- `class ApiEnumConstant` from `model/enums.py`. -/
structure ApiEnumConstant where
  name : String
  value : Int
  deriving Repr

/-- `class ApiEnum` from `model/enums.py`. -/
structure ApiEnum where
  qualifiedName : String
  name : String
  baseType : PrimitiveTypeKind
  constants : List ApiEnumConstant
  deriving Repr

/-- `class ApiValueTypeField` from `model/value_types.py`. -/
structure ApiValueTypeField where
  name : String
  type : ApiTypeRef
  deriving Repr

/-- `class ApiValueType` from `model/value_types.py`.  Its `__init__` takes
exactly the four attributes below — it has no header-path parameter or
attribute. -/
structure ApiValueType where
  qualifiedName : String
  name : String
  fields : List ApiValueTypeField
  unionField : Option String
  deriving Repr

/-- `class ApiInterface` from `model/interfaces.py`. -/
structure ApiInterface where
  qualifiedName : String
  name : String
  methods : List ApiMethod
  deriving Repr

/-- `class ApiCallback` from `model/callbacks.py`. -/
structure ApiCallback where
  qualifiedName : String
  returnType : Option ApiTypeRef
  parameters : List ApiParameterModel
  deriving Repr

/-- `class ApiModel` from `model/__init__.py`. -/
structure ApiModel where
  classes : List ApiClass := []
  enums : List ApiEnum := []
  valueTypes : List ApiValueType := []
  interfaces : List ApiInterface := []
  callbacks : List ApiCallback := []
  deriving Repr

/-- `settings.value_types` from `settings.py`. -/
def settingsValueTypes : List String :=
  ["filament::Box", "filament::Frustum", "utils::Entity",
   "filament::LightManager::ShadowOptions", "filament::driver::FaceOffsets",
   "filament::Material::ParameterInfo", "filament::RenderableManager::Bone",
   "filament::View::DynamicResolutionOptions"]

/-- `settings.borrowed_obj_superclass` from `settings.py`. -/
def settingsBorrowedObjSuperclass : String := "filament::FilamentAPI"

/-- Left-to-right, non-overlapping replacement of each `::` by `_` on the
character list (the semantics of Python's `str.replace("::", "_")`). -/
def replaceColonPairs : List Char → List Char
  | [] => []
  | ':' :: ':' :: rest => '_' :: replaceColonPairs rest
  | c :: rest => c :: replaceColonPairs rest

/-- `_mangle_name` from `generators/c.py`; `mangle_name` in
`generators/c_name_mangling.py` is the same function:
`name.replace("::", "_")`. -/
def mangleName (name : String) : String := ⟨replaceColonPairs name.data⟩

/-- `_acceptable_value_return_types` from `generators/c_type_conversion.py`:
primitive kinds that can be returned as values rather than through pointers. -/
def acceptableValueReturnTypes : List PrimitiveTypeKind :=
  [.BOOL, .UINT8, .INT8, .UINT16, .INT16, .UINT32, .INT32, .UINT64, .INT64,
   .SIZE_T, .FLOAT, .DOUBLE]

/-- `_trivial_primitives` from `generators/c.py`: primitives usable as return
types directly. -/
def trivialPrimitives : List PrimitiveTypeKind :=
  [.BOOL, .UINT8, .INT8, .UINT16, .INT16, .UINT32, .INT32, .UINT64, .INT64,
   .SIZE_T, .FLOAT, .DOUBLE]

/-- `ExpressionTypeConverter.can_be_returned` from
`generators/c_type_conversion.py`.  Any type reference other than a primitive
or a value-type reference falls through to `return True` (the source comments
this fall-through with "Might still apply for R value references"). -/
def canBeReturned : ApiTypeRef → Bool
  | .primitive k => acceptableValueReturnTypes.contains k
  | .valueTypeRef _ => false
  | _ => true

/-- `_needs_return_value_transform` from `generators/c.py`.  The argument is a
method return type, which can be `None` (void); every `isinstance` check fails
on `None`, so the function returns `False` for it. -/
def needsReturnValueTransform : Option ApiTypeRef → Bool
  | some (.primitive k) => !trivialPrimitives.contains k
  | some (.valueTypeRef _) => true
  | _ => false

/-- `_primitive_type_names` from `generators/c.py` (external spellings).  The
dictionary has no entries for `UNEXPOSED` and `STD_STRING` (modelled as
`none`); its final entry refers to `PrimitiveTypeKind.FRUSTUM`, which is not a
member of the enumeration in `model/types.py`, so the entry cannot be keyed
here (see the claim about the force-cast tables). -/
def primitiveTypeNames : PrimitiveTypeKind → Option String
  | .BOOL => some "FBOOL"
  | .UINT8 => some "uint8_t"
  | .INT8 => some "int8_t"
  | .UINT16 => some "uint16_t"
  | .INT16 => some "int16_t"
  | .UINT32 => some "uint32_t"
  | .INT32 => some "int32_t"
  | .UINT64 => some "uint64_t"
  | .INT64 => some "int64_t"
  | .SIZE_T => some "size_t"
  | .FLOAT => some "float"
  | .DOUBLE => some "double"
  | .ENTITY => some "FENTITY"
  | .SAMPLER_PARAMS => some "FSAMPLER_PARAMS"
  | .LINEAR_COLOR => some "FLINEAR_COLOR"
  | .LINEAR_COLOR_A => some "FLINEAR_COLOR_A"
  | .MAT33_DOUBLE => some "FMAT33_DOUBLE"
  | .MAT33_FLOAT => some "FMAT33_FLOAT"
  | .MAT44_DOUBLE => some "FMAT44_DOUBLE"
  | .MAT44_FLOAT => some "FMAT44_FLOAT"
  | .VEC2_DOUBLE => some "FVEC2_DOUBLE"
  | .VEC2_FLOAT => some "FVEC2_FLOAT"
  | .VEC3_DOUBLE => some "FVEC3_DOUBLE"
  | .VEC3_FLOAT => some "FVEC3_FLOAT"
  | .VEC4_DOUBLE => some "FVEC4_DOUBLE"
  | .VEC4_FLOAT => some "FVEC4_FLOAT"
  | .QUATERNION_FLOAT => some "FQUATERNION_FLOAT"
  | _ => none

/-- `_primitive_type_names_filament` from `generators/c.py` (native
spellings).  No entries for `UNEXPOSED`, `STD_STRING` or `SAMPLER_PARAMS`, and
the `FRUSTUM` entry cannot be keyed (see above). -/
def primitiveTypeNamesFilament : PrimitiveTypeKind → Option String
  | .BOOL => some "bool"
  | .UINT8 => some "uint8_t"
  | .INT8 => some "int8_t"
  | .UINT16 => some "uint16_t"
  | .INT16 => some "int16_t"
  | .UINT32 => some "uint32_t"
  | .INT32 => some "int32_t"
  | .UINT64 => some "uint64_t"
  | .INT64 => some "int64_t"
  | .SIZE_T => some "size_t"
  | .FLOAT => some "float"
  | .DOUBLE => some "double"
  | .ENTITY => some "utils::Entity"
  | .LINEAR_COLOR => some "filament::LinearColor"
  | .LINEAR_COLOR_A => some "filament::LinearColorA"
  | .MAT33_DOUBLE => some "math::mat3"
  | .MAT33_FLOAT => some "math::mat3f"
  | .MAT44_DOUBLE => some "math::mat4"
  | .MAT44_FLOAT => some "math::mat4f"
  | .VEC2_DOUBLE => some "math::double2"
  | .VEC2_FLOAT => some "math::float2"
  | .VEC3_DOUBLE => some "math::double3"
  | .VEC3_FLOAT => some "math::float3"
  | .VEC4_DOUBLE => some "math::double4"
  | .VEC4_FLOAT => some "math::float4"
  | .QUATERNION_FLOAT => some "math::quatf"
  | _ => none

/-- `_force_cast_primitive_kinds` from `generators/c.py`, restricted to the
members that exist in `PrimitiveTypeKind`: the source set additionally names
`PrimitiveTypeKind.FRUSTUM`, which the enumeration does not declare. -/
def forceCastPrimitiveKindsC : List PrimitiveTypeKind :=
  [.ENTITY, .MAT33_DOUBLE, .MAT33_FLOAT, .MAT44_DOUBLE, .MAT44_FLOAT,
   .VEC2_DOUBLE, .VEC2_FLOAT, .VEC3_DOUBLE, .VEC3_FLOAT, .VEC4_DOUBLE,
   .VEC4_FLOAT, .QUATERNION_FLOAT]

mutual

/-- `CGenerator._get_type_repr` from `generators/c.py`.  `none` models the
raising branch (`RuntimeError` for unsupported bitset shapes) and the final
fall-through (which in Python returns the `repr` of the `to_dict()` dictionary
for `ApiConstantArray`, `ApiAnonymousCallback` and `ApiOpaqueRef`; that string
is never a valid C type and is not modelled).  Missing dictionary keys
(`STD_STRING` in either table, `SAMPLER_PARAMS` in the native table) raise
`KeyError` in Python and are likewise `none`.  Note that the recursive call on
a `PassByRef` pointee passes no `api_surface` argument, i.e. always uses the
external-surface default `True`. -/
def getTypeRepr : Option ApiTypeRef → Bool → Option String
  | none, _ => some "void"
  | some t, apiSurface => getTypeReprRef t apiSurface

/-- The non-`None` part of `CGenerator._get_type_repr`. -/
def getTypeReprRef : ApiTypeRef → Bool → Option String
  | .passByRef c rt pointee, apiSurface =>
      (getTypeRepr pointee true).map fun inner =>
        (if c then "const " else "") ++ inner
          ++ (if apiSurface || rt = .POINTER then "*" else "&")
  | .primitive k, apiSurface =>
      if k = .UNEXPOSED then some "void*"
      else if apiSurface then primitiveTypeNames k else primitiveTypeNamesFilament k
  | .classRef n, apiSurface => some (if apiSurface then mangleName n else n)
  | .enumRef n, apiSurface => some (if apiSurface then mangleName n else n)
  | .valueTypeRef n, apiSurface => some (if apiSurface then mangleName n else n)
  | .callbackRef n, apiSurface => some (if apiSurface then mangleName n else n)
  | .bitset et ec, apiSurface =>
      if et = .UINT32 ∧ ec = 1 then
        some (if apiSurface then "uint32_t" else "utils::bitset32")
      else none
  | .entityInstance owner, apiSurface =>
      some (if apiSurface then mangleName owner ++ "_Instance"
            else "utils::EntityInstance<" ++ owner ++ ">")
  | .stringType, _ => some "const char*"
  | .anonymousCallback _ _ _, _ => none
  | .constantArray _ _, _ => none
  | .opaqueRef _, _ => none

end

/-- `CONSTRUCTOR_NAME` from `generators/c_name_mangling.py`. -/
def CONSTRUCTOR_NAME : String := "Create"

/-- `DESTRUCTOR_NAME` from `generators/c_name_mangling.py`. -/
def DESTRUCTOR_NAME : String := "Destroy"

/-- The `Union[ApiClass, ApiInterface]` owner argument taken by
`CGenerator._get_exported_method_name` and `resolve_overloaded_name`. -/
inductive MethodOwner where
  | cls (c : ApiClass)
  | itf (i : ApiInterface)
  deriving Repr

/-- The owner's qualified name (`class_model.qualified_name`). -/
def MethodOwner.qualifiedName : MethodOwner → String
  | .cls c => c.qualifiedName
  | .itf i => i.qualifiedName

/-- The `other_methods` pool built by `CGenerator._get_exported_method_name` in
`generators/c.py`: `methods + static_methods` for a class, `methods` for an
interface. -/
def MethodOwner.cMethodPool : MethodOwner → List ApiMethod
  | .cls c => c.methods ++ c.staticMethods
  | .itf i => i.methods

/-- `CGenerator._get_exported_method_name` from `generators/c.py`.  Python
compares methods with `==` (identity, since `ApiMethod` defines no `__eq__`);
the structural `ApiMethod.beq` agrees with it whenever the owner's same-name
methods are pairwise structurally distinct, which holds for every input used
below.  `none` models the `ValueError` that `conflicts.index` raises when the
method is not in the pool. -/
def exportedMethodName (owner : MethodOwner) (m : ApiMethod) : Option String :=
  let pfxName := mangleName owner.qualifiedName ++ "_"
  let conflicts := owner.cMethodPool.filter fun o => o.name = m.name
  if conflicts.length = 0 ∨
      (conflicts.length = 1 ∧ (conflicts.head?.elim false fun c0 => c0.beq m)) then
    some (pfxName ++ m.name)
  else
    (conflicts.findIdx? fun o => o.beq m).map fun i =>
      pfxName ++ m.name ++ toString (i + 1)

/-- The `other_methods` pool built by `resolve_overloaded_name` in
`generators/c_name_mangling.py`: for a class it additionally treats each
constructor as a method named `Create` and, if the class is destructible, adds
a parameterless method named `Destroy`. -/
def MethodOwner.manglingMethodPool : MethodOwner → List ApiMethod
  | .cls c =>
      c.methods ++ c.staticMethods
        ++ c.constructors.map (fun k => ⟨CONSTRUCTOR_NAME, none, k.parameters⟩)
        ++ (if c.destructible then [⟨DESTRUCTOR_NAME, none, []⟩] else [])
  | .itf i => i.methods

/-- `resolve_overloaded_name` from `generators/c_name_mangling.py`.  The
conflict set holds the parameter lists of the same-name pool methods; Python
compares parameter lists with `list.__eq__` (elementwise identity), modelled by
the structural `paramsBeq` (they agree whenever same-name parameter lists are
pairwise structurally distinct).  `none` models the `ValueError` of
`conflicts.index`. -/
def resolveOverloadedName (owner : MethodOwner) (methodName : String)
    (parameters : List ApiParameterModel) : Option String :=
  let conflicts :=
    (owner.manglingMethodPool.filter fun o => o.name = methodName).map (·.parameters)
  if conflicts.length = 0 ∨
      (conflicts.length = 1 ∧ (conflicts.head?.elim false fun c0 => paramsBeq c0 parameters)) then
    some methodName
  else
    (conflicts.findIdx? fun o => paramsBeq o parameters).map fun i =>
      methodName ++ toString (i + 1)

/-- `DelegateFactory._create_delegate_name` from `generators/c_delegates.py`:
mangled owner name, underscore, then the overload-resolved name. -/
def createDelegateName (owner : MethodOwner) (methodName : String)
    (parameters : List ApiParameterModel) : Option String :=
  (resolveOverloadedName owner methodName parameters).map fun n =>
    mangleName owner.qualifiedName ++ "_" ++ n

/-- Result of `CGenerator._create_method_header` from `generators/c.py`.
`finalParameters` is the `method_parameters` list as seen by the caller after
the call: Python appends the `result` parameter to the caller's list in place.
`text` is `none` when a type rendering inside raises (never on the inputs used
below). -/
structure MethodHeaderResult where
  text : Option String
  trailingReturnValue : Bool
  finalParameters : List ApiParameterModel
  deriving Repr

/-- The `", "`-joined parameter clause written by both
`CGenerator._create_method_header` and `CGenerator._get_function_pointer_decl`
(`{type repr} {name}` per parameter). -/
def renderParameterClause (ps : List ApiParameterModel) : Option String :=
  (ps.mapM fun p => (getTypeRepr p.type true).map fun t => t ++ " " ++ p.name).map
    (String.intercalate ", ")

/-- `CGenerator._create_method_header` from `generators/c.py`. -/
def createMethodHeader (owner : MethodOwner) (m : ApiMethod)
    (methodParameters : List ApiParameterModel) : MethodHeaderResult :=
  let methodName := exportedMethodName owner m
  let trailing := needsReturnValueTransform m.returnType
  let ps :=
    if trailing then
      methodParameters ++ [⟨"result", some (.passByRef false .POINTER m.returnType)⟩]
    else methodParameters
  let text := do
    let n ← methodName
    let r ← if trailing then some "void" else getTypeRepr m.returnType true
    let clause ← renderParameterClause ps
    pure (r ++ " " ++ n ++ "(" ++ clause ++ ")")
  ⟨text, trailing, ps⟩

/-- `CGenerator._get_function_pointer_decl` from `generators/c.py`.  As in the
source, when the return type needs the trailing-output transform the `result`
parameter is appended to the caller's `method_parameters` list in place; the
second component is that caller-visible list after the call. -/
def getFunctionPointerDecl (name : String) (returnType : Option ApiTypeRef)
    (methodParameters : List ApiParameterModel) :
    Option String × List ApiParameterModel :=
  let trailing := needsReturnValueTransform returnType
  let ps :=
    if trailing then
      methodParameters ++ [⟨"result", some (.passByRef false .POINTER returnType)⟩]
    else methodParameters
  let text := do
    let r ← if trailing then some "void" else getTypeRepr returnType true
    let clause ← renderParameterClause ps
    pure (r ++ "(*" ++ name ++ ")(" ++ clause ++ ")")
  (text, ps)

/-- The callback-typedef step of `CGenerator._generate_header` from
`generators/c.py` (the loop over `self.model.callbacks`): it passes
`callback.parameters` itself — not a copy — to `_get_function_pointer_decl`,
so the callback object the model holds is updated with whatever that call
appended.  The first component is the emitted text, the second the callback as
it exists in the model afterwards. -/
def generateCallbackTypedef (cb : ApiCallback) : Option String × ApiCallback :=
  let r := getFunctionPointerDecl (mangleName cb.qualifiedName) cb.returnType cb.parameters
  (r.1.map fun d => "typedef " ++ d ++ ";\n", { cb with parameters := r.2 })

/-- The interface-struct step of `CGenerator._generate_header` from
`generators/c.py` (lines 219-244), returning the text written for one
interface.  Faithful details: a synthetic parameterless method named `free` is
appended to a copy of the method list; for each method the source builds
`method_parameters = method.parameters[:]` and appends a raw
`ApiPassByRef(False, POINTER, None)` ("Add a user arg to all callbacks") but
then passes `method.parameters` — not `method_parameters` — to
`_get_function_pointer_decl`, so the extended list is dead and the emitted
function-pointer type has no user-data parameter.  (The in-place `result`
append performed by `_get_function_pointer_decl` is modelled at
`generateCallbackTypedef`.)  Python accumulates the field lines by `+=` on a
list, which extends it character by character; `writelines` then writes the
same text, so the concatenation below is textually identical. -/
def generateInterfaceSection (itf : ApiInterface) : Option String := do
  let name := mangleName itf.qualifiedName
  let interfaceMethods := itf.methods ++ [⟨"free", none, []⟩]
  let pieces ← interfaceMethods.mapM fun m => do
    let mname ← exportedMethodName (.itf itf) m
    let _deadUserExtended :=
      m.parameters ++ [⟨"", some (.passByRef false .POINTER none)⟩]
    let d ← (getFunctionPointerDecl mname m.returnType m.parameters).1
    pure ("typedef " ++ d ++ ";\n", "    " ++ mname ++ " " ++ m.name ++ ";\n")
  let typedefText := String.join (pieces.map (·.1))
  let fieldsText := String.join (pieces.map (·.2)) ++ "    void* user;\n"
  pure (typedefText ++ "\n" ++ "typedef struct " ++ name ++ " \x7b\n"
    ++ fieldsText ++ "\x7d " ++ name ++ ";\n\n")

/-- `CGenerator._convert_out` from `generators/c.py`: the outbound
(native-to-external) conversion expression.  Returns the expression unchanged
for every case other than enum casts and force-cast primitives. -/
def convertOutC (expression : String) (t : ApiTypeRef) : Option String :=
  let step : String × Option ApiTypeRef :=
    match t with
    | .passByRef _ rt pointee =>
        ((if rt = .LVALUE_REF then "&" ++ expression else expression), pointee)
    | _ => (expression, some t)
  match step.2 with
  | some (.enumRef n) =>
      (getTypeRepr (some (.enumRef n)) true).map fun r => "(" ++ r ++ ")" ++ step.1
  | some (.primitive k) =>
      if forceCastPrimitiveKindsC.contains k then some ("convertOut(" ++ step.1 ++ ")")
      else some step.1
  | _ => some step.1

/-- The per-field conversion lines of the value-type loop in
`CGenerator._generate_conversion_methods` (`generators/c.py` lines 402-411):
a `ConstantArray` field becomes one assignment per index, any other field one
assignment. -/
def valueTypeFieldConvLines (f : ApiValueTypeField) : Option (List String) :=
  match f.type with
  | .constantArray elemT n =>
      (List.range n).mapM fun i =>
        (convertOutC ("input." ++ f.name ++ "[" ++ toString i ++ "]") elemT).map
          fun e => "    result." ++ f.name ++ "[" ++ toString i ++ "] = " ++ e ++ ";\n"
  | t =>
      (convertOutC ("input." ++ f.name) t).map
        fun e => ["    result." ++ f.name ++ " = " ++ e ++ ";\n"]

/-- The declaration appended per value type by
`CGenerator._generate_conversion_methods` (`generators/c.py` line 398): a
single `convertOut` prototype.  No external-to-native (`convertIn`) function is
declared or defined for value types anywhere in the generator. -/
def valueTypeConvertOutDecl (vt : ApiValueType) : String :=
  mangleName vt.qualifiedName ++ " convertOut(" ++ vt.qualifiedName ++ ");\n"

/-- The implementation lines appended per value type by
`CGenerator._generate_conversion_methods` (`generators/c.py` lines 399-414). -/
def valueTypeConvertOutImpl (vt : ApiValueType) : Option (List String) :=
  (vt.fields.mapM valueTypeFieldConvLines).map fun fieldLines =>
    ("inline " ++ mangleName vt.qualifiedName ++ " convertOut("
        ++ vt.qualifiedName ++ " input) \x7b\n")
      :: ("    " ++ mangleName vt.qualifiedName ++ " result;\n")
      :: (fieldLines.flatten ++ ["    return result;\n", "\x7d\n\n"])

/-- All conversion-function declarations emitted for the model's value types
(the `for value_type in self.model.value_types` loop of
`_generate_conversion_methods`). -/
def valueTypeConversionDecls (vts : List ApiValueType) : List String :=
  vts.map valueTypeConvertOutDecl

/-- `get_method_comparison_obj` from `apiparser.py`: the method's `to_dict()`
tree with the constness of a by-reference return type cleared, paired with
whether it was set.  (`to_dict` builds fresh dictionaries, so clearing the flag
does not modify the model; `to_dict` is injective on this data, so dictionary
equality is the structural equality `ApiMethod.beq`.) -/
def getMethodComparisonObj (m : ApiMethod) : ApiMethod × Bool :=
  match m.returnType with
  | some (.passByRef c rt p) =>
      if c then ({ m with returnType := some (.passByRef false rt p) }, true)
      else (m, false)
  | _ => (m, false)

/-- `_remove_duplicate_methods` from `apiparser.py`.  The Python double loop
keeps `methods[i]` unless some later `methods[j]` has an equal comparison
object and `methods[i]` does *not* have a const return; phrased recursively:
the head is dropped exactly when a structurally equal (modulo return-type
constness) method occurs later in the list and the head's return is not
const. -/
def removeDuplicateMethods : List ApiMethod → List ApiMethod
  | [] => []
  | m :: rest =>
      let obj := getMethodComparisonObj m
      let dup := rest.any fun o => (getMethodComparisonObj o).1.beq obj.1
      if dup && !obj.2 then removeDuplicateMethods rest
      else m :: removeDuplicateMethods rest

/-- The `isinstance(t, ApiEnumRef)` test applied by
`ApiModelParser._get_enum_refs` to parameter and return types: only an
*immediate* `ApiEnumRef` matches; enums behind `ApiPassByRef` or
`ApiConstantArray` do not. -/
def immediateEnumRefName : Option ApiTypeRef → Option String
  | some (.enumRef n) => some n
  | _ => none

/-- `ApiModelParser._get_enum_refs` from `apiparser.py`: the qualified names of
enums appearing as the immediate type of a method / static-method / constructor
parameter, a method return, or a value-type field.  The source accumulates a
Python `set`; only membership in the result is ever used, so it is modelled as
a list of the collected names. -/
def getEnumRefs (m : ApiModel) : List String :=
  (m.classes.flatMap fun c =>
    ((c.methods ++ c.staticMethods).flatMap fun meth =>
        meth.parameters.filterMap (fun p => immediateEnumRefName p.type)
          ++ (immediateEnumRefName meth.returnType).toList)
      ++ c.constructors.flatMap fun k =>
          k.parameters.filterMap fun p => immediateEnumRefName p.type)
    ++ m.valueTypes.flatMap fun vt =>
        vt.fields.filterMap fun f => immediateEnumRefName (some f.type)

/-- The dead-enum post-pass of `ApiModelParser.parse_api` from `apiparser.py`:
`self._model.enums = [x for x in self._model.enums if x.qualified_name in enums]`. -/
def filterUnusedEnums (m : ApiModel) : ApiModel :=
  { m with enums := m.enums.filter fun e => (getEnumRefs m).contains e.qualifiedName }

/-- The `clang.cindex.CursorKind` values consumed by `apiparser.py`. -/
inductive CursorKind where
  | NAMESPACE
  | CLASS_DECL
  | STRUCT_DECL
  | CLASS_TEMPLATE
  | CXX_BASE_SPECIFIER
  | TYPE_REF
  | TEMPLATE_REF
  | CONSTRUCTOR
  | DESTRUCTOR
  | CXX_METHOD
  | FIELD_DECL
  | UNION_DECL
  | PARM_DECL
  | ENUM_DECL
  | ENUM_CONSTANT_DECL
  | ANNOTATE_ATTR
  | OTHER
  deriving DecidableEq, Repr

/-- The `clang.cindex.AccessSpecifier` values consumed by `apiparser.py`. -/
inductive AccessSpecifier where
  | PUBLIC
  | PROTECTED
  | PRIVATE
  deriving DecidableEq, Repr

/-- The slice of a `clang.cindex.Cursor` consumed by the extractor functions of
`apiparser.py`.  `qualifiedName` carries the value `_get_qualified_name` would
compute by walking `semantic_parent` links (parser-front-end input, outside
this core); `paramType` carries, for a `PARM_DECL`, the `ApiTypeRef` that
`_build_type_model(cursor.type)` resolves the parameter's clang type to;
`definition` is `get_definition()` of a `TYPE_REF`/`TEMPLATE_REF` (the
referenced class's definition cursor, `none` for unresolved forward-declared
template arguments). -/
inductive Cursor where
  | mk (kind : CursorKind)
      (qualifiedName : String)
      (displayname : String)
      (spelling : String)
      (access : AccessSpecifier)
      (isCopyConstructor : Bool)
      (isMoveConstructor : Bool)
      (isDefaultConstructor : Bool)
      (paramType : Option ApiTypeRef)
      (children : List Cursor)
      (definition : Option Cursor)
  deriving Repr

/-- Projection: `cursor.kind`. -/
def Cursor.kind : Cursor → CursorKind
  | .mk k _ _ _ _ _ _ _ _ _ _ => k

/-- Projection: the qualified name `_get_qualified_name(cursor)`. -/
def Cursor.qualifiedName : Cursor → String
  | .mk _ q _ _ _ _ _ _ _ _ _ => q

/-- Projection: `cursor.displayname`. -/
def Cursor.displayname : Cursor → String
  | .mk _ _ d _ _ _ _ _ _ _ _ => d

/-- Projection: `cursor.spelling`. -/
def Cursor.spelling : Cursor → String
  | .mk _ _ _ s _ _ _ _ _ _ _ => s

/-- Projection: `cursor.access_specifier`. -/
def Cursor.access : Cursor → AccessSpecifier
  | .mk _ _ _ _ a _ _ _ _ _ _ => a

/-- Projection: `cursor.is_copy_constructor()`. -/
def Cursor.isCopyConstructor : Cursor → Bool
  | .mk _ _ _ _ _ c _ _ _ _ _ => c

/-- Projection: `cursor.is_move_constructor()`. -/
def Cursor.isMoveConstructor : Cursor → Bool
  | .mk _ _ _ _ _ _ m _ _ _ _ => m

/-- Projection: `cursor.is_default_constructor()`. -/
def Cursor.isDefaultConstructor : Cursor → Bool
  | .mk _ _ _ _ _ _ _ d _ _ _ => d

/-- Projection: the resolved `_build_type_model(cursor.type)` of a parameter. -/
def Cursor.paramType : Cursor → Option ApiTypeRef
  | .mk _ _ _ _ _ _ _ _ t _ _ => t

/-- Projection: `cursor.get_children()`. -/
def Cursor.children : Cursor → List Cursor
  | .mk _ _ _ _ _ _ _ _ _ cs _ => cs

/-- Projection: `cursor.get_definition()`. -/
def Cursor.definition : Cursor → Option Cursor
  | .mk _ _ _ _ _ _ _ _ _ _ d => d

mutual

/-- `_get_base_classes` from `apiparser.py` (with its default
`include_transitive=True`, as used by every caller).  Note the source returns
from inside the loop over `cursor.get_children()` after processing the *first*
`CXX_BASE_SPECIFIER` child only; further base specifiers of the same class are
never examined. -/
def getBaseClasses : Cursor → List String
  | .mk _ _ _ _ _ _ _ _ _ children _ => firstBaseSpecBases children

/-- The loop of `_get_base_classes`: bases contributed by the first
`CXX_BASE_SPECIFIER` child, if any. -/
def firstBaseSpecBases : List Cursor → List String
  | [] => []
  | .mk k _ _ _ _ _ _ _ _ specChildren _ :: rest =>
      if k = .CXX_BASE_SPECIFIER then baseSpecRefBases specChildren
      else firstBaseSpecBases rest

/-- The inner loop of `_get_base_classes`: each `TYPE_REF`/`TEMPLATE_REF` child
with a resolvable definition contributes that definition's qualified name and,
transitively, its own bases. -/
def baseSpecRefBases : List Cursor → List String
  | [] => []
  | .mk k _ _ _ _ _ _ _ _ _ defn :: rest =>
      (if k = .TYPE_REF ∨ k = .TEMPLATE_REF then baseDefBases defn else [])
        ++ baseSpecRefBases rest

/-- Bases contributed by one resolved base-class definition cursor. -/
def baseDefBases : Option Cursor → List String
  | none => []
  | some d => d.qualifiedName :: getBaseClasses d

end

mutual

/-- `_is_destructible` from `apiparser.py`. -/
def isDestructible : Cursor → Bool
  | .mk _ _ _ _ _ _ _ _ _ children _ => destructibleScan children false false

/-- The child loop of `_is_destructible`, carrying the
`explicit_public_destructor` and `has_non_destructible_baseclass` flags.  A
non-public destructor returns `False` immediately; after the loop the class is
destructible unless a base class is non-destructible and no explicit public
destructor was seen. -/
def destructibleScan : List Cursor → Bool → Bool → Bool
  | [], explicitPub, hasBad => if hasBad then explicitPub else true
  | .mk k _ _ _ acc _ _ _ _ specChildren _ :: rest, explicitPub, hasBad =>
      let hasBad2 :=
        if k = .CXX_BASE_SPECIFIER then hasBad || anyNonDestructibleBase specChildren
        else hasBad
      if k ≠ .DESTRUCTOR then destructibleScan rest explicitPub hasBad2
      else if acc ≠ .PUBLIC then false
      else destructibleScan rest true hasBad2

/-- The base-specifier inner loop of `_is_destructible`: does any resolved base
definition fail `_is_destructible`? -/
def anyNonDestructibleBase : List Cursor → Bool
  | [] => false
  | .mk k _ _ _ _ _ _ _ _ _ defn :: rest =>
      (decide (k = .TYPE_REF ∨ k = .TEMPLATE_REF) && nonDestructibleDef defn)
        || anyNonDestructibleBase rest

/-- `base_def and not _is_destructible(base_def)` for one base reference. -/
def nonDestructibleDef : Option Cursor → Bool
  | none => false
  | some d => !isDestructible d

end

/-- The `explicit_default_constructor_found` flag computed by
`_get_public_constructors` in `apiparser.py`: a constructor child that is
neither copy nor move and is a default constructor (regardless of access). -/
def explicitDefaultConstructorFound (c : Cursor) : Bool :=
  c.children.any fun ch =>
    ch.kind = CursorKind.CONSTRUCTOR && !ch.isCopyConstructor
      && !ch.isMoveConstructor && ch.isDefaultConstructor

/-- The `constructors` list collected by `_get_public_constructors`: public
constructor children that are neither copy nor move constructors, in
declaration order. -/
def publicConstructorChildren (c : Cursor) : List Cursor :=
  c.children.filter fun ch =>
    ch.kind = CursorKind.CONSTRUCTOR && !ch.isCopyConstructor
      && !ch.isMoveConstructor && ch.access = AccessSpecifier.PUBLIC

/-- `_get_public_constructors` from `apiparser.py`.  `none` is Python's
`None`: the class has no public constructors, either because the borrowed-
object marker base is among `_get_base_classes(cursor)` or because an explicit
default constructor exists, is not public, and no other public constructor
exists. -/
def getPublicConstructors (c : Cursor) : Option (List Cursor) :=
  if settingsBorrowedObjSuperclass ∈ getBaseClasses c then none
  else if explicitDefaultConstructorFound c && (publicConstructorChildren c).isEmpty then none
  else some (publicConstructorChildren c)

/-- `ApiModelParser._build_method_parameters_models` from `apiparser.py`: one
`ApiParameterModel` per `PARM_DECL` child, named by `displayname`, typed by the
resolved `_build_type_model(cursor.type)`. -/
def buildMethodParameters (c : Cursor) : List ApiParameterModel :=
  c.children.filterMap fun ch =>
    if ch.kind = CursorKind.PARM_DECL then some ⟨ch.displayname, ch.paramType⟩
    else none

/-- `ApiModelParser._build_constructor_models` from `apiparser.py`: `None`
public constructors give an empty list; an empty list of public constructors
synthesizes one parameterless constructor; otherwise each public constructor
cursor becomes a model. -/
def buildConstructorModels (c : Cursor) : List ApiConstructor :=
  match getPublicConstructors c with
  | none => []
  | some [] => [⟨[]⟩]
  | some ctors => ctors.map fun k => ⟨buildMethodParameters k⟩

/-- Number of positional parameters (besides `self`) accepted by
`ApiValueType.__init__` in `model/value_types.py`:
`(qualified_name, name, fields, union_field=None)`. -/
def apiValueTypeInitParamCount : Nat := 4

/-- Number of positional arguments that `ApiModelParser._build_value_type_model`
in `apiparser.py` passes to `ApiValueType(...)`:
`(rel_header_path, qualified_name, class_name, fields, union_field)`. -/
def buildValueTypeModelCallArgCount : Nat := 5

/-- The attribute names `ApiValueType.__init__` stores on the instance. -/
def apiValueTypeAttributeNames : List String :=
  ["qualified_name", "name", "fields", "union_field"]

/-- Possible outcomes of `ApiModelParser._build_value_type_model` from
`apiparser.py` on a class/struct definition cursor. -/
inductive ValueTypeBuildOutcome where
  | notConfigured
  | notDestructibleError
  | noDefaultConstructorError
  | constructionTypeError
  deriving DecidableEq, Repr

/-- The control flow of `ApiModelParser._build_value_type_model`: return `None`
when the qualified name is not in `settings.value_types`; raise `RuntimeError`
when the declaration is not destructible; raise `RuntimeError` when no built
constructor model is parameterless; otherwise the function reaches
`return ApiValueType(rel_header_path, qualified_name, class_name, fields,
union_field)` — a call that passes `buildValueTypeModelCallArgCount` positional
arguments to an `__init__` accepting at most `apiValueTypeInitParamCount`, and
therefore raises `TypeError` instead of returning a model. -/
def buildValueTypeModelOutcome (c : Cursor) : ValueTypeBuildOutcome :=
  if ¬ settingsValueTypes.contains c.qualifiedName then .notConfigured
  else if ¬ isDestructible c then .notDestructibleError
  else if ¬ (buildConstructorModels c).any (fun k => k.parameters.isEmpty) then
    .noDefaultConstructorError
  else .constructionTypeError

mutual

/-- Modelled from the spec: enum qualified names reachable from a type
reference with "reachability passing through indirection and array type
references" (the reference definition the dead-enum claim is compared
against; `_get_enum_refs` in the source does not recurse like this). -/
def specEnumNamesInType : ApiTypeRef → List String
  | .enumRef n => [n]
  | .passByRef _ _ p => specEnumNamesInTypeOpt p
  | .constantArray t _ => specEnumNamesInType t
  | _ => []

/-- Modelled from the spec: reachability through an optional type reference. -/
def specEnumNamesInTypeOpt : Option ApiTypeRef → List String
  | none => []
  | some t => specEnumNamesInType t

end

/-- Modelled from the spec: "the transitive closure of enum names reachable
from some method parameter, method return, constructor parameter, or
value-type field", with reachability passing through indirection and arrays.
Same collection sites as `getEnumRefs`, but recursive in the type structure. -/
def specReachableEnumNames (m : ApiModel) : List String :=
  (m.classes.flatMap fun c =>
    ((c.methods ++ c.staticMethods).flatMap fun meth =>
        meth.parameters.flatMap (fun p => specEnumNamesInTypeOpt p.type)
          ++ specEnumNamesInTypeOpt meth.returnType)
      ++ c.constructors.flatMap fun k =>
          k.parameters.flatMap fun p => specEnumNamesInTypeOpt p.type)
    ++ m.valueTypes.flatMap fun vt => vt.fields.flatMap fun f => specEnumNamesInType f.type

mutual

/-- Modelled from the spec: "any (transitive) base class" of a class — the
base names reachable through *every* base specifier, not only the first one
that `_get_base_classes` examines. -/
def specAllTransitiveBases : Cursor → List String
  | .mk _ _ _ _ _ _ _ _ _ children _ => specBasesOfChildren children

/-- Modelled from the spec: bases contributed by every base-specifier child. -/
def specBasesOfChildren : List Cursor → List String
  | [] => []
  | .mk k _ _ _ _ _ _ _ _ specChildren _ :: rest =>
      (if k = .CXX_BASE_SPECIFIER then specBaseRefsOf specChildren else [])
        ++ specBasesOfChildren rest

/-- Modelled from the spec: base names referenced by one base specifier. -/
def specBaseRefsOf : List Cursor → List String
  | [] => []
  | .mk k _ _ _ _ _ _ _ _ _ defn :: rest =>
      (if k = .TYPE_REF ∨ k = .TEMPLATE_REF then specBaseDefBases defn else [])
        ++ specBaseRefsOf rest

/-- Modelled from the spec: names contributed by one resolved base definition. -/
def specBaseDefBases : Option Cursor → List String
  | none => []
  | some d => d.qualifiedName :: specAllTransitiveBases d

end

/-- The Prop-level statement of what `_get_enum_refs` collects: the name
appears as the immediate type of a class method / static-method parameter, a
method return, a constructor parameter, or a value-type field. -/
def DirectlyReferencesEnum (m : ApiModel) (n : String) : Prop :=
  (∃ c ∈ m.classes,
      (∃ meth ∈ c.methods,
          (∃ p ∈ meth.parameters, p.type = some (.enumRef n))
            ∨ meth.returnType = some (.enumRef n))
        ∨ (∃ meth ∈ c.staticMethods,
            (∃ p ∈ meth.parameters, p.type = some (.enumRef n))
              ∨ meth.returnType = some (.enumRef n))
        ∨ (∃ k ∈ c.constructors, ∃ p ∈ k.parameters, p.type = some (.enumRef n)))
    ∨ (∃ vt ∈ m.valueTypes, ∃ f ∈ vt.fields, f.type = .enumRef n)

/-! ### Concrete inputs used by the theorems -/

/-- A callback whose return type is a non-trivially-returnable primitive, so
`_get_function_pointer_decl` applies the trailing-output transform to it. -/
def callbackWithNonTrivialReturn : ApiCallback :=
  ⟨"filament::Engine::DriverCallback", some (.primitive .MAT44_FLOAT), []⟩

/-- Scenario A: the overload `int value() const` of `Ns::Widget`. -/
def scenarioAValueNoArg : ApiMethod := ⟨"value", some (.primitive .INT32), []⟩

/-- Scenario A: the overload `int value(int)` of `Ns::Widget`. -/
def scenarioAValueIntArg : ApiMethod :=
  ⟨"value", some (.primitive .INT32), [⟨"v", some (.primitive .INT32)⟩]⟩

/-- Scenario A: the parameter list of the constructor `Widget(int)`. -/
def scenarioAWidgetCtorParams : List ApiParameterModel := [⟨"v", some (.primitive .INT32)⟩]

/-- Scenario A: class `Ns::Widget` with one public constructor `Widget(int)`
and the two `value` overloads. -/
def scenarioAWidget : ApiClass :=
  ⟨"Ns/Widget.h", "Ns::Widget", "Widget", true, [⟨scenarioAWidgetCtorParams⟩],
   [scenarioAValueNoArg, scenarioAValueIntArg], []⟩

/-- A class with a single method, for the unique-name witness. -/
def singleMethodClass : ApiClass :=
  ⟨"Ns/Single.h", "Ns::Single", "Single", true, [], [⟨"value", some (.primitive .INT32), []⟩], []⟩

/-- A method whose by-reference return type is const-qualified. -/
def constReturnMethod : ApiMethod :=
  ⟨"getTransform", some (.passByRef true .LVALUE_REF (some (.classRef "math::mat4"))), []⟩

/-- The same method with the non-const by-reference return type. -/
def nonConstReturnMethod : ApiMethod :=
  ⟨"getTransform", some (.passByRef false .LVALUE_REF (some (.classRef "math::mat4"))), []⟩

/-- A class whose only enum use is behind a pointer indirection. -/
def pointerEnumParamClass : ApiClass :=
  ⟨"filament/View.h", "ns::C", "C", true, [],
   [⟨"setMode", none, [⟨"mode", some (.passByRef false .POINTER (some (.enumRef "ns::Mode")))⟩]⟩],
   []⟩

/-- A model whose single enum is referenced only through indirection. -/
def indirectEnumModel : ApiModel :=
  { classes := [pointerEnumParamClass],
    enums := [⟨"ns::Mode", "Mode", .INT32, [⟨"A", 0⟩]⟩] }

/-- A model whose single enum is referenced by exactly one value-type field. -/
def fieldEnumModel : ApiModel :=
  { valueTypes := [⟨"ns::Opts", "Opts", [⟨"mode", .enumRef "ns::Mode"⟩], none⟩],
    enums := [⟨"ns::Mode", "Mode", .INT32, [⟨"A", 0⟩]⟩] }

/-- Scenario C: a value type with one `float[3]` field. -/
def floatArrayValueType : ApiValueType :=
  ⟨"filament::Box", "Box", [⟨"center", .constantArray (.primitive .FLOAT) 3⟩], none⟩

/-- An interface with a single `void onTerminate(int32)` method. -/
def listenerInterface : ApiInterface :=
  ⟨"utils::EntityManager::Listener", "Listener",
   [⟨"onTerminate", none, [⟨"e", some (.primitive .INT32)⟩]⟩]⟩

/-- A configured value type's declaration cursor: destructible (no destructor
declared, no bases) with no declared constructors (so a parameterless one is
synthesized). -/
def plainValueTypeCursor : Cursor :=
  .mk .STRUCT_DECL "filament::Box" "Box" "Box" .PUBLIC false false false none [] none

/-- The definition cursor of the borrowed-object marker base
`filament::FilamentAPI`. -/
def borrowedBaseDef : Cursor :=
  .mk .CLASS_DECL "filament::FilamentAPI" "FilamentAPI" "FilamentAPI" .PUBLIC
    false false false none [] none

/-- The definition cursor of an ordinary base class. -/
def plainBaseDef : Cursor :=
  .mk .CLASS_DECL "ns::Helper" "Helper" "Helper" .PUBLIC false false false none [] none

/-- A `CXX_BASE_SPECIFIER` child referring to the given base definition. -/
def baseSpecOf (d : Cursor) : Cursor :=
  .mk .CXX_BASE_SPECIFIER "" "" "" .PUBLIC false false false none
    [.mk .TYPE_REF "" "" "" .PUBLIC false false false none [] (some d)] none

/-- A public single-`int`-parameter constructor cursor. -/
def publicIntCtor : Cursor :=
  .mk .CONSTRUCTOR "" "C" "C" .PUBLIC false false false none
    [.mk .PARM_DECL "" "v" "v" .PUBLIC false false false (some (.primitive .INT32)) [] none]
    none

/-- A class whose *second* base specifier refers to the borrowed-object marker
base, and which declares a public constructor. -/
def secondBaseBorrowedClass : Cursor :=
  .mk .CLASS_DECL "ns::C" "C" "C" .PUBLIC false false false none
    [baseSpecOf plainBaseDef, baseSpecOf borrowedBaseDef, publicIntCtor] none

/-- A class whose first (and only) base specifier refers to the borrowed-object
marker base, and which declares a public constructor (scenario D). -/
def borrowedFirstClass : Cursor :=
  .mk .CLASS_DECL "ns::D" "D" "D" .PUBLIC false false false none
    [baseSpecOf borrowedBaseDef, publicIntCtor] none

/-- A method whose return type forces the trailing-output transform. -/
def matrixReturnMethod : ApiMethod := ⟨"getMatrix", some (.primitive .MAT44_FLOAT), []⟩

/-! ### Claim theorems -/

/-- C1 (counterexample): the claim says the returnable-by-value decision is
false for every non-trivial-primitive type reference, including `ClassRef`.
On the code, `can_be_returned` returns `True` for a class reference,
`_needs_return_value_transform` returns `False` for it, and the generated
header for a method returning it appends no `result` parameter. -/
theorem C1_counterexample :
    canBeReturned (.classRef "filament::Engine") = true ∧
      needsReturnValueTransform (some (.classRef "filament::Engine")) = false ∧
      (createMethodHeader (.cls scenarioAWidget)
          ⟨"getEngine", some (.classRef "filament::Engine"), []⟩ []).finalParameters = [] :=
  ⟨rfl, rfl, rfl⟩

/-- C2: generation is not a pure function of the model.  The callback-typedef
step of `_generate_header` passes `callback.parameters` itself to
`_get_function_pointer_decl`, which appends the `result` parameter to it in
place whenever the return type needs the trailing-output transform; the model
therefore changes (parameter count 0 becomes 1), and generating again from the
mutated model produces different bytes. -/
theorem C2_generation_mutates_model :
    callbackWithNonTrivialReturn.parameters.length = 0 ∧
      (generateCallbackTypedef callbackWithNonTrivialReturn).2.parameters.length = 1 ∧
      (generateCallbackTypedef
          ((generateCallbackTypedef callbackWithNonTrivialReturn).2)).1
        ≠ (generateCallbackTypedef callbackWithNonTrivialReturn).1 := by
  refine ⟨rfl, rfl, ?_⟩
  decide

/-- C3 (counterexample): in scenario A the claim expects the first `value`
overload to be exported unsuffixed as `Ns_Widget_value`; the code suffixes
both overloads (1-based), so the first overload is `Ns_Widget_value1`. -/
theorem C3_counterexample :
    exportedMethodName (.cls scenarioAWidget) scenarioAValueNoArg ≠ some "Ns_Widget_value" := by
  decide

/-- C4: duplicate-method removal does not keep the non-const-returning method.
With the non-const overload first, the *const* one is kept; with the const
overload first, *both* are kept — contradicting the claim in both orders (the
source comment says "Prefer to delete the const version", but the condition
drops the scanned method exactly when it does not have a const return). -/
theorem C4_const_duplicate_removal_eval :
    removeDuplicateMethods [nonConstReturnMethod, constReturnMethod] = [constReturnMethod] ∧
      removeDuplicateMethods [constReturnMethod, nonConstReturnMethod]
        = [constReturnMethod, nonConstReturnMethod] :=
  ⟨rfl, rfl⟩

/-- C5 (counterexample): an enum reachable from a method parameter through a
pointer indirection is in the spec's reachability closure but is discarded by
the code's post-pass, which only looks at immediate `ApiEnumRef` types. -/
theorem C5_counterexample :
    "ns::Mode" ∈ specReachableEnumNames indirectEnumModel ∧
      (filterUnusedEnums indirectEnumModel).enums = [] := by
  exact ⟨by decide, rfl⟩

/-- C6: for a retained value type the generator declares exactly one
conversion function — the native-to-external `convertOut` — and no
external-to-native function; the `float[3]` field is converted by three
independent per-index pass-through assignments. -/
theorem C6_value_type_conversion_eval :
    valueTypeConversionDecls [floatArrayValueType]
        = ["filament_Box convertOut(filament::Box);\n"] ∧
      valueTypeConvertOutImpl floatArrayValueType
        = some ["inline filament_Box convertOut(filament::Box input) \x7b\n",
                "    filament_Box result;\n",
                "    result.center[0] = input.center[0];\n",
                "    result.center[1] = input.center[1];\n",
                "    result.center[2] = input.center[2];\n",
                "    return result;\n",
                "\x7d\n\n"] :=
  ⟨rfl, rfl⟩

/-- C7: the interface section emitted for an interface with one method.  The
struct has one function-pointer field per method, a synthesized parameterless
`free` method, and a trailing `void* user` field, but the emitted
function-pointer typedefs carry *no* appended user-data pointer parameter:
the code builds the extended parameter list and then generates the typedef
from `method.parameters` instead. -/
theorem C7_interface_section_eval :
    generateInterfaceSection listenerInterface
      = some ("typedef void(*utils_EntityManager_Listener_onTerminate)(int32_t e);\n"
          ++ "typedef void(*utils_EntityManager_Listener_free)();\n"
          ++ "\n"
          ++ "typedef struct utils_EntityManager_Listener \x7b\n"
          ++ "    utils_EntityManager_Listener_onTerminate onTerminate;\n"
          ++ "    utils_EntityManager_Listener_free free;\n"
          ++ "    void* user;\n"
          ++ "\x7d utils_EntityManager_Listener;\n\n") :=
  rfl

/-- C8: for a configured, destructible value-type declaration with an
(implicitly synthesized) parameterless constructor, `_build_value_type_model`
passes its checks and then reaches the `ApiValueType(...)` construction —
which passes five positional arguments to a constructor accepting four, so it
raises `TypeError` instead of returning the claimed record; the record type
also stores no header-path attribute at all. -/
theorem C8_value_type_build_eval :
    buildValueTypeModelOutcome plainValueTypeCursor = .constructionTypeError ∧
      apiValueTypeInitParamCount < buildValueTypeModelCallArgCount ∧
      "rel_header_path" ∉ apiValueTypeAttributeNames := by
  decide

/-- C9 (counterexample): a class whose *second* base specifier names the
borrowed-object marker base.  The marker is among the class's transitive base
classes, and the class declares a public constructor, yet the built
constructor list is not empty, because `_get_base_classes` only examines the
first base specifier. -/
theorem C9_counterexample :
    settingsBorrowedObjSuperclass ∈ specAllTransitiveBases secondBaseBorrowedClass ∧
      buildConstructorModels secondBaseBorrowedClass
        = [⟨[⟨"v", some (.primitive .INT32)⟩]⟩] := by
  exact ⟨by decide, rfl⟩

/-- C1 (amended): the returnable-by-value decision is true exactly for the
trivial scalar primitives and for every non-primitive type reference other
than `ValueTypeRef`; it is false exactly for `ValueTypeRef` and non-trivial
primitive kinds.  `_needs_return_value_transform` is pointwise the negation of
`can_be_returned`, and whenever it holds the generated external signature has
a `void` return and an appended final parameter named `result` of type
pointer-to-return-type, while when it does not hold no parameter is
appended. -/
theorem C1_return_decision_amended :
    (∀ t : ApiTypeRef, needsReturnValueTransform (some t) = !canBeReturned t)
    ∧ (∀ t : ApiTypeRef, canBeReturned t = true ↔
         (∃ k, t = .primitive k ∧ k ∈ acceptableValueReturnTypes)
           ∨ ((∀ k, t ≠ .primitive k) ∧ ∀ n, t ≠ .valueTypeRef n))
    ∧ (∀ (owner : MethodOwner) (m : ApiMethod) (ps : List ApiParameterModel),
         (createMethodHeader owner m ps).trailingReturnValue
           = needsReturnValueTransform m.returnType)
    ∧ (∀ (owner : MethodOwner) (m : ApiMethod) (ps : List ApiParameterModel),
         needsReturnValueTransform m.returnType = false →
         (createMethodHeader owner m ps).finalParameters = ps)
    ∧ (∀ (owner : MethodOwner) (m : ApiMethod) (ps : List ApiParameterModel),
         needsReturnValueTransform m.returnType = true →
         (createMethodHeader owner m ps).finalParameters
           = ps ++ [⟨"result", some (.passByRef false .POINTER m.returnType)⟩])
    ∧ (∀ (owner : MethodOwner) (m : ApiMethod) (ps : List ApiParameterModel) (s : String),
         needsReturnValueTransform m.returnType = true →
         (createMethodHeader owner m ps).text = some s → ∃ r, s = "void " ++ r) := by
  refine ⟨?_, ?_, ?_, ?_, ?_, ?_⟩
  · intro t
    cases t <;> rfl
  · intro t
    cases t <;> simp [canBeReturned]
  · intro owner m ps
    rfl
  · intro owner m ps h
    simp [createMethodHeader, h]
  · intro owner m ps h
    simp [createMethodHeader, h]
  · intro owner m ps s h htext
    simp only [createMethodHeader, h, if_true, Option.bind_eq_bind] at htext
    cases hn : exportedMethodName owner m with
    | none => rw [hn] at htext; simp at htext
    | some n =>
      rw [hn] at htext
      cases hc : renderParameterClause
          (ps ++ [⟨"result", some (.passByRef false .POINTER m.returnType)⟩]) with
      | none => rw [hc] at htext; simp at htext
      | some clause =>
        rw [hc] at htext
        simp at htext
        exact ⟨n ++ "(" ++ clause ++ ")", by
          rw [← htext]
          simp [String.append_assoc]⟩

/-- C1 (witness): for a method whose return type is a non-trivial primitive,
the transform really appends the `result` pointer parameter. -/
theorem C1_witness :
    (createMethodHeader (.cls scenarioAWidget) matrixReturnMethod []).finalParameters
      = [⟨"result", some (.passByRef false .POINTER (some (.primitive .MAT44_FLOAT)))⟩] :=
  C1_return_decision_amended.2.2.2.2.1 (.cls scenarioAWidget) matrixReturnMethod [] rfl

/-- C3 (amended): when zero or one method of the owner bears the name, the
external symbol is the mangled owner name, an underscore and the method name
with no suffix; with two overloads *both* are suffixed with their 1-based
position in the conflict set, so scenario A yields `Ns_Widget_Create`,
`Ns_Widget_value1` (first overload) and `Ns_Widget_value2` (second). -/
theorem C3_overload_naming_amended :
    (∀ (owner : MethodOwner) (mn : String) (ps : List ApiParameterModel),
        owner.manglingMethodPool.filter (fun o => o.name = mn) = [] →
        resolveOverloadedName owner mn ps = some mn)
    ∧ (∀ (owner : MethodOwner) (m : ApiMethod),
        m ∈ owner.cMethodPool →
        (owner.cMethodPool.filter fun o => o.name = m.name).length = 1 →
        exportedMethodName owner m = some (mangleName owner.qualifiedName ++ "_" ++ m.name))
    ∧ exportedMethodName (.cls scenarioAWidget) scenarioAValueNoArg = some "Ns_Widget_value1"
    ∧ exportedMethodName (.cls scenarioAWidget) scenarioAValueIntArg = some "Ns_Widget_value2"
    ∧ createDelegateName (.cls scenarioAWidget) CONSTRUCTOR_NAME scenarioAWidgetCtorParams
        = some "Ns_Widget_Create" := by
  refine ⟨?_, ?_, rfl, rfl, rfl⟩
  · intro owner mn ps h
    simp [resolveOverloadedName, h]
  · intro owner m hm hlen
    have hmF : m ∈ owner.cMethodPool.filter fun o => o.name = m.name :=
      List.mem_filter.mpr ⟨hm, by simp⟩
    obtain ⟨x, hx⟩ := List.length_eq_one.mp hlen
    rw [hx] at hmF
    have hxm : x = m := (List.mem_singleton.mp hmF).symm
    rw [hxm] at hx
    simp [exportedMethodName, hx, methodBeq_refl]

/-- C3 (witness): a uniquely named method is exported unsuffixed. -/
theorem C3_witness :
    exportedMethodName (.cls singleMethodClass) ⟨"value", some (.primitive .INT32), []⟩
      = some "Ns_Single_value" :=
  C3_overload_naming_amended.2.1 (.cls singleMethodClass) _
    (by simp [MethodOwner.cMethodPool, singleMethodClass]) rfl

/-- `immediateEnumRefName` succeeds exactly on an immediate enum reference. -/
theorem immediateEnumRefName_eq_some {o : Option ApiTypeRef} {n : String} :
    immediateEnumRefName o = some n ↔ o = some (.enumRef n) := by
  cases o with
  | none => simp [immediateEnumRefName]
  | some t => cases t <;> simp [immediateEnumRefName]

/-- Membership in the collected enum-reference set coincides with the
Prop-level direct-reference characterization. -/
theorem mem_getEnumRefs {m : ApiModel} {n : String} :
    n ∈ getEnumRefs m ↔ DirectlyReferencesEnum m n := by
  simp [getEnumRefs, DirectlyReferencesEnum, List.mem_flatMap, List.mem_append,
    List.mem_filterMap, immediateEnumRefName_eq_some]

/-- C5 (amended): after the post-pass, an enum entry is present in the model
if and only if it was present before and its qualified name appears as the
*immediate* type of some class method parameter, class method return, class
constructor parameter, or value-type field; references through indirection or
arrays (and interface or callback signatures) are not scanned. -/
theorem C5_dead_enum_amended (m : ApiModel) (e : ApiEnum) :
    e ∈ (filterUnusedEnums m).enums ↔ e ∈ m.enums ∧ DirectlyReferencesEnum m e.qualifiedName := by
  rw [← mem_getEnumRefs]
  simp [filterUnusedEnums, List.mem_filter]

/-- C5 (witness): an enum referenced by exactly one value-type field is
retained. -/
theorem C5_witness :
    (⟨"ns::Mode", "Mode", .INT32, [⟨"A", 0⟩]⟩ : ApiEnum)
      ∈ (filterUnusedEnums fieldEnumModel).enums :=
  (C5_dead_enum_amended fieldEnumModel _).mpr
    ⟨by simp [fieldEnumModel],
     Or.inr ⟨⟨"ns::Opts", "Opts", [⟨"mode", .enumRef "ns::Mode"⟩], none⟩,
       by simp [fieldEnumModel], ⟨"mode", .enumRef "ns::Mode"⟩, by simp, rfl⟩⟩

/-- When `_get_public_constructors` returns a list, it is exactly the list of
public, non-copy, non-move constructor children. -/
theorem getPublicConstructors_eq_some {c : Cursor} {l : List Cursor}
    (h : getPublicConstructors c = some l) : l = publicConstructorChildren c := by
  by_cases h1 : settingsBorrowedObjSuperclass ∈ getBaseClasses c
  · simp [getPublicConstructors, h1] at h
  · by_cases h2 : (explicitDefaultConstructorFound c && (publicConstructorChildren c).isEmpty) = true
    · simp [getPublicConstructors, h1, h2] at h
    · simp [getPublicConstructors, h1, h2] at h
      exact h.symm

/-- C9 (amended): the borrowed-object suppression fires when the marker base
is among the bases the code actually computes — the transitive closure
obtained by following, at each class, only the first base specifier.  Under
that reading: a class whose computed base set contains the marker has an empty
constructor list; a class with an explicit non-public default constructor and
no other public constructor has an empty list; a class declaring no
constructors at all (and not marked borrowed) gets exactly one synthetic
zero-parameter constructor; and every constructor model either is the
synthetic parameterless one or stems from a public non-copy, non-move
constructor declaration. -/
theorem C9_constructor_policy_amended (c : Cursor) :
    (settingsBorrowedObjSuperclass ∈ getBaseClasses c → buildConstructorModels c = [])
    ∧ (explicitDefaultConstructorFound c = true → publicConstructorChildren c = [] →
        buildConstructorModels c = [])
    ∧ ((∀ ch ∈ c.children, ch.kind ≠ CursorKind.CONSTRUCTOR) →
        settingsBorrowedObjSuperclass ∉ getBaseClasses c →
        buildConstructorModels c = [⟨[]⟩])
    ∧ (∀ k ∈ buildConstructorModels c, k.parameters = [] ∨
        ∃ ch ∈ c.children, ch.kind = CursorKind.CONSTRUCTOR ∧
          ch.access = AccessSpecifier.PUBLIC ∧ ch.isCopyConstructor = false ∧
          ch.isMoveConstructor = false ∧ k.parameters = buildMethodParameters ch) := by
  refine ⟨?_, ?_, ?_, ?_⟩
  · intro h
    simp [buildConstructorModels, getPublicConstructors, h]
  · intro h1 h2
    by_cases hb : settingsBorrowedObjSuperclass ∈ getBaseClasses c
    · simp [buildConstructorModels, getPublicConstructors, hb]
    · simp [buildConstructorModels, getPublicConstructors, hb, h1, h2]
  · intro hno hb
    have hdef : explicitDefaultConstructorFound c = false := by
      simp only [explicitDefaultConstructorFound, List.any_eq_false]
      intro ch hch
      simp [hno ch hch]
    have hpub : publicConstructorChildren c = [] := by
      simp only [publicConstructorChildren]
      refine List.filter_eq_nil_iff.mpr ?_
      intro ch hch
      simp [hno ch hch]
    simp [buildConstructorModels, getPublicConstructors, hb, hdef, hpub]
  · intro k hk
    cases hg : getPublicConstructors c with
    | none => rw [buildConstructorModels, hg] at hk; simp at hk
    | some l =>
      have hl : l = publicConstructorChildren c := getPublicConstructors_eq_some hg
      cases l with
      | nil =>
        rw [buildConstructorModels, hg] at hk
        simp at hk
        left
        rw [hk]
      | cons x xs =>
        rw [buildConstructorModels, hg] at hk
        simp only [List.mem_map] at hk
        obtain ⟨ch, hchmem, hchk⟩ := hk
        right
        have hmemP : ch ∈ publicConstructorChildren c := by rw [← hl]; exact hchmem
        have hfilter := List.mem_filter.mp hmemP
        have hprops := hfilter.2
        simp only [Bool.and_eq_true, decide_eq_true_eq, Bool.not_eq_true'] at hprops
        exact ⟨ch, hfilter.1, hprops.1.1.1, hprops.2, hprops.1.1.2, hprops.1.2,
          by rw [← hchk]⟩

/-- C9 (witness): scenario D — a class whose first base specifier names the
borrowed-object marker base yields an empty constructor list even though it
declares a public constructor. -/
theorem C9_witness :
    buildConstructorModels borrowedFirstClass = [] :=
  (C9_constructor_policy_amended borrowedFirstClass).1 (by decide)

/-- C10: the generator's force-cast and spelling tables refer to the member
name `FRUSTUM`, but no variant of `PrimitiveTypeKind` (from `model/types.py`)
has that name, so evaluating `PrimitiveTypeKind.FRUSTUM` while defining the
tables raises `AttributeError`: the mere definition of the tables fails. -/
theorem C10_frustum_not_a_member :
    (∀ k : PrimitiveTypeKind, k.pyName ≠ "FRUSTUM") ∧
      (∀ k : PrimitiveTypeKind, k.pyName ∈ primitiveTypeKindMemberNames) ∧
      "FRUSTUM" ∈ cGeneratorForceCastKindNames ∧
      "FRUSTUM" ∈ cGeneratorPrimitiveTableKindNames ∧
      "FRUSTUM" ∉ primitiveTypeKindMemberNames := by
  refine ⟨?_, ?_, by decide, by decide, by decide⟩
  · intro k
    cases k <;> decide
  · intro k
    cases k <;> decide

end Filament
